import Mathlib

/-!
Verification development for the rust-crowbar boundary layer (`src/lib.rs`).

The crate wraps a native Rust function so that a CPython host can invoke it:
the host passes an event object and a context object; the adapter decodes the
event into a JSON value, snapshots seven string attributes of the context,
calls the user function once, and encodes the result (or translates the error)
back to the host.

Host-side (CPython) objects and behaviours are embedded shallowly:
`PyVal` models the Python values that can cross the boundary, `PyErr` models a
raised Python exception (exception kind as a string, payload as an optional
value), attribute access and integer extraction follow CPython semantics.
The JSON value codec (`to_json` / `from_json`) is implemented in the external
`cpython_json` crate, so it is modelled from the spec where marked.
-/

namespace Crowbar

/-- Shallow embedding of the Python values that can appear at the boundary:
the JSON-compatible shapes (none, bool, int, float, str, list, dict with
string keys) plus `custom`, an instance of an arbitrary Python class that is
outside the convertible subset (identified by its class name).  Floating point
payloads are carried as their opaque 64-bit pattern (a `Nat`); the codec never
inspects or transforms the payload, so this is faithful for round trips.
Host mappings with non-string keys are outside the modelled subset. -/
inductive PyVal where
  | none : PyVal
  | bool (b : Bool) : PyVal
  | int (n : Int) : PyVal
  | float (bits : Nat) : PyVal
  | str (s : String) : PyVal
  | list (xs : List PyVal) : PyVal
  | dict (kvs : List (String × PyVal)) : PyVal
  | custom (className : String) : PyVal

/-- Model of `cpython::PyErr`: a raised Python exception, with the exception
type identified by name (`ptype`) and the exception value (`pvalue`).
The traceback field of the source struct is always `None` in the code under
study and is omitted. -/
structure PyErr where
  ptype : String
  pvalue : Option PyVal

/-- Model of `serde_json::value::Value` restricted to the shapes the boundary
uses: null, boolean, integer or floating point number, string, array, and
object represented as an association list of string-keyed entries (iteration
order is the list order). -/
inductive Value where
  | null : Value
  | bool (b : Bool) : Value
  | int (n : Int) : Value
  | float (bits : Nat) : Value
  | str (s : String) : Value
  | arr (xs : List Value) : Value
  | obj (kvs : List (String × Value)) : Value

/-- Model of `cpython_json::JsonError` (the conversion error of the external
codec crate): the only failure reachable in the modelled subset is an
unsupported Python type, carrying the offending class name. -/
inductive JsonError where
  | typeError (className : String) : JsonError

/-- Model of `cpython_json::JsonError::to_pyerr`: an unsupported-type
conversion failure becomes a Python `TypeError`, as in the external crate. -/
def JsonError.to_pyerr : JsonError → PyErr
  | .typeError c => ⟨"TypeError", some (.str (c ++ " is not JSON serializable"))⟩

namespace ValueCodec

mutual

/-- Modelled from the spec: `encode(Value) -> Result<native, ConversionError>`
(the `from_json` direction of the external `cpython_json` crate, which is not
part of this repository).  Encoding maps each JSON value to the corresponding
Python value structurally. -/
def encodeVal : Value → PyVal
  | .null => .none
  | .bool b => .bool b
  | .int n => .int n
  | .float q => .float q
  | .str s => .str s
  | .arr xs => .list (encodeArr xs)
  | .obj kvs => .dict (encodeObj kvs)

/-- Modelled from the spec: encoding of an ordered sequence, element by
element in order. -/
def encodeArr : List Value → List PyVal
  | [] => []
  | v :: vs => encodeVal v :: encodeArr vs

/-- Modelled from the spec: encoding of a string-keyed mapping, entry by
entry in iteration order. -/
def encodeObj : List (String × Value) → List (String × PyVal)
  | [] => []
  | (k, v) :: kvs => (k, encodeVal v) :: encodeObj kvs

end

mutual

/-- Modelled from the spec: `decode(native) -> Result<Value, ConversionError>`
(the `to_json` direction of the external `cpython_json` crate, which is not
part of this repository).  Decoding maps each supported Python value to the
corresponding JSON value and fails with a conversion error on a value outside
the supported subset (a custom class instance). -/
def decodeVal : PyVal → Except JsonError Value
  | .none => .ok .null
  | .bool b => .ok (.bool b)
  | .int n => .ok (.int n)
  | .float q => .ok (.float q)
  | .str s => .ok (.str s)
  | .list xs =>
    match decodeArr xs with
    | .error e => .error e
    | .ok vs => .ok (.arr vs)
  | .dict kvs =>
    match decodeObj kvs with
    | .error e => .error e
    | .ok vs => .ok (.obj vs)
  | .custom c => .error (.typeError c)

/-- Modelled from the spec: decoding of a sequence, element by element in
order, failing on the first element that fails. -/
def decodeArr : List PyVal → Except JsonError (List Value)
  | [] => .ok []
  | x :: xs =>
    match decodeVal x with
    | .error e => .error e
    | .ok v =>
      match decodeArr xs with
      | .error e => .error e
      | .ok vs => .ok (v :: vs)

/-- Modelled from the spec: decoding of a mapping, entry by entry in
iteration order, failing on the first entry whose value fails. -/
def decodeObj : List (String × PyVal) → Except JsonError (List (String × Value))
  | [] => .ok []
  | (k, x) :: xs =>
    match decodeVal x with
    | .error e => .error e
    | .ok v =>
      match decodeObj xs with
      | .error e => .error e
      | .ok vs => .ok ((k, v) :: vs)

end

/-- Modelled from the spec: the codec's decode entry point, as used by the
adapter for the incoming event (`to_json` in the source). -/
def decode (x : PyVal) : Except JsonError Value := decodeVal x

/-- Modelled from the spec: the codec's encode entry point, as used by the
adapter for the outgoing result (`from_json` in the source).  Every value of
the supported subset encodes successfully; the `Result` shape is kept because
the spec and the adapter treat encoding as fallible. -/
def encode (v : Value) : Except JsonError PyVal := .ok (encodeVal v)

end ValueCodec

/-- Model of the host-owned context object as the Rust code observes it
through the `cpython` interface: `attrs` gives the object's attributes
(`getattr`), and `remainingTime` gives the result of the k-th invocation of
its zero-argument `get_remaining_time_in_millis` method.  The method result
is indexed by the invocation count because the host object is stateful: the
remaining time changes between calls, so each call may observe a different
answer. -/
structure HostContext where
  attrs : String → Option PyVal
  remainingTime : Nat → Except PyErr PyVal

/-- Models the host (CPython) behaviour of `PyObject::getattr`: returns the
attribute's value, or raises an `AttributeError` naming the missing
attribute. -/
def HostContext.getattr (c : HostContext) (name : String) : Except PyErr PyVal :=
  match c.attrs name with
  | some v => .ok v
  | Option.none => .error ⟨"AttributeError", some (.str name)⟩

/-- Models the host (CPython) behaviour of `extract::<String>`: succeeds on a
string object, raises a `TypeError` on anything else. -/
def extractString : PyVal → Except PyErr String
  | .str s => .ok s
  | _ => .error ⟨"TypeError", some (.str "expected a string")⟩

/-- Models the host (CPython) behaviour of `extract::<u64>`: succeeds on an
integer in the unsigned 64-bit range, raises an `OverflowError` on an
out-of-range integer and a `TypeError` on a non-integer. -/
def extractU64 : PyVal → Except PyErr Nat
  | .int n =>
    if 0 ≤ n ∧ n < 2 ^ 64 then .ok n.toNat
    else .error ⟨"OverflowError", some (.str "can not fit into u64")⟩
  | _ => .error ⟨"TypeError", some (.str "expected an integer")⟩

/-- The `str_attr!` macro of `LambdaContext::new`:
`py_context.getattr(*py, $x)?.extract::<String>(*py)?`. -/
def strAttr (py_context : HostContext) (name : String) : Except PyErr String :=
  (py_context.getattr name).bind extractString

/-- The seven attribute names read by `LambdaContext::new`, in the fixed
order the source reads them. -/
def contextAttrNames : List String :=
  ["function_name", "function_version", "invoked_function_arn",
   "memory_limit_in_mb", "aws_request_id", "log_group_name", "log_stream_name"]

/-- Model of `crowbar::LambdaContext`: the borrowed host context object plus
the fixed-size array of seven strings captured at construction
(`string_storage: [String; 7]` in the source, embedded as a function out of
`Fin 7`). -/
structure LambdaContext where
  py_context : HostContext
  string_storage : Fin 7 → String

/-- The fixed-size array `[String; 7]` built by `LambdaContext::new`, indexed
as the source indexes `string_storage`. -/
def storage7 (s0 s1 s2 s3 s4 s5 s6 : String) : Fin 7 → String := fun i =>
  match i.val with
  | 0 => s0
  | 1 => s1
  | 2 => s2
  | 3 => s3
  | 4 => s4
  | 5 => s5
  | _ => s6

/-- Model of `LambdaContext::new`: reads the seven attributes in order via
`str_attr!`, each read fail-fast with the `?` operator propagating the host
error (a `PyErr`, since the return type is `PyResult`), and on success stores
the seven strings. -/
def LambdaContext.new (py_context : HostContext) : Except PyErr LambdaContext :=
  match strAttr py_context "function_name" with
  | .error e => .error e
  | .ok s0 =>
    match strAttr py_context "function_version" with
    | .error e => .error e
    | .ok s1 =>
      match strAttr py_context "invoked_function_arn" with
      | .error e => .error e
      | .ok s2 =>
        match strAttr py_context "memory_limit_in_mb" with
        | .error e => .error e
        | .ok s3 =>
          match strAttr py_context "aws_request_id" with
          | .error e => .error e
          | .ok s4 =>
            match strAttr py_context "log_group_name" with
            | .error e => .error e
            | .ok s5 =>
              match strAttr py_context "log_stream_name" with
              | .error e => .error e
              | .ok s6 =>
                .ok ⟨py_context, storage7 s0 s1 s2 s3 s4 s5 s6⟩

/-- Accessor `function_name`: `&self.string_storage[0]`. -/
def LambdaContext.function_name (c : LambdaContext) : String := c.string_storage 0

/-- Accessor `function_version`: `&self.string_storage[1]`. -/
def LambdaContext.function_version (c : LambdaContext) : String := c.string_storage 1

/-- Accessor `invoked_function_arn`: `&self.string_storage[2]`. -/
def LambdaContext.invoked_function_arn (c : LambdaContext) : String := c.string_storage 2

/-- Accessor `memory_limit_in_mb`: `&self.string_storage[3]`. -/
def LambdaContext.memory_limit_in_mb (c : LambdaContext) : String := c.string_storage 3

/-- Accessor `aws_request_id`: `&self.string_storage[4]`. -/
def LambdaContext.aws_request_id (c : LambdaContext) : String := c.string_storage 4

/-- Accessor `log_group_name`: `&self.string_storage[5]`. -/
def LambdaContext.log_group_name (c : LambdaContext) : String := c.string_storage 5

/-- Accessor `log_stream_name`: `&self.string_storage[6]`. -/
def LambdaContext.log_stream_name (c : LambdaContext) : String := c.string_storage 6

/-- Model of `crowbar::ContextError`: the error enum has exactly this one
variant. -/
inductive ContextError where
  | GetRemainingTimeFailed : ContextError

/-- Model of `impl Display for ContextError`. -/
def ContextError.display : ContextError → String
  | .GetRemainingTimeFailed => "failed to call get_remaining_time_in_millis"

/-- Model of `Error::description for ContextError`. -/
def ContextError.description : ContextError → String
  | .GetRemainingTimeFailed => "failed to call get_remaining_time_in_millis"

/-- Model of `Error::cause for ContextError`: always `None`; the option
carries the description of the cause error, were there one. -/
def ContextError.cause (_ : ContextError) : Option String := Option.none

/-- Model of `LambdaContext::get_remaining_time_in_millis`: calls the
zero-argument method on the underlying host object (`call_method`), then
coerces the result to `u64` (`and_then(extract::<u64>)`), and collapses any
error into `ContextError::GetRemainingTimeFailed` (`map_err`).  The parameter
`k` is the index of this call into the stateful host method — the source
re-invokes the method on every call, so the result is a function of the call
at hand, never of a cached earlier answer. -/
def LambdaContext.get_remaining_time_in_millis
    (c : LambdaContext) (k : Nat) : Except ContextError Nat :=
  match (c.py_context.remainingTime k).bind extractU64 with
  | .ok n => .ok n
  | .error _ => .error ContextError.GetRemainingTimeFailed

/-- Sequencing of remaining-time queries against a context view: the method
takes `&self` (a shared borrow with no interior mutability on
`string_storage`), so after each call the view is the very same value; the
first component is the view after the whole sequence, the second the list of
results. -/
def runRemainingCalls (c : LambdaContext) :
    List Nat → LambdaContext × List (Except ContextError Nat)
  | [] => (c, [])
  | k :: ks =>
    let r := c.get_remaining_time_in_millis k
    let (c2, rs) := runRemainingCalls c ks
    (c2, r :: rs)

/-- Model of the user function's error: `Box<std::error::Error>`, observed by
the adapter only through its `Debug` formatting `format!("\x7b:?\x7d", e)`,
which the crate documentation calls the diagnostic text of the error. -/
structure BoxedError where
  debugText : String

/-- Model of `crowbar::LambdaResult = Result<Value, Box<Error>>`. -/
def LambdaResult := Except BoxedError Value

/-- Model of `crowbar::handler` instrumented with the number of times the
user function is invoked (the source calls `f` at exactly one syntactic
site): decode the event with `to_json`, translating failure via `to_pyerr`;
build the context view, the `?` propagating its `PyErr` unchanged; call the
user function once; on `Err(e)` raise a `RuntimeError` whose value is the
`Debug` text of `e`; on `Ok(r)` encode with `from_json`, translating failure
via `to_pyerr`. -/
def handlerTrace (f : Value → LambdaContext → LambdaResult)
    (py_event : PyVal) (py_context : HostContext) : Except PyErr PyVal × Nat :=
  match ValueCodec.decode py_event with
  | .error e => (.error e.to_pyerr, 0)
  | .ok event =>
    match LambdaContext.new py_context with
    | .error e => (.error e, 0)
    | .ok ctx =>
      match f event ctx with
      | .error e => (.error ⟨"RuntimeError", some (.str e.debugText)⟩, 1)
      | .ok r =>
        match ValueCodec.encode r with
        | .error e => (.error e.to_pyerr, 1)
        | .ok out => (.ok out, 1)

/-- Model of `crowbar::handler`: the host-visible outcome of one invocation
of the adapter. -/
def handler (f : Value → LambdaContext → LambdaResult)
    (py_event : PyVal) (py_context : HostContext) : Except PyErr PyVal :=
  (handlerTrace f py_event py_context).1

/-- A concrete host context object with no attributes at all and a failing
remaining-time method. -/
def missingCtx : HostContext where
  attrs := fun _ => Option.none
  remainingTime := fun _ =>
    .error ⟨"AttributeError", some (.str "get_remaining_time_in_millis")⟩

/-- A concrete host context carrying the seven Scenario B strings of the
spec, whose remaining-time method answers 5000 on its first invocation and
4000 on every later one (the host clock moves between calls). -/
def scenarioBHost : HostContext where
  attrs := fun name =>
    if name = "function_name" then some (.str "f")
    else if name = "function_version" then some (.str "1")
    else if name = "invoked_function_arn" then
      some (.str "arn:aws:lambda:us-east-1:123456789012:function:f")
    else if name = "memory_limit_in_mb" then some (.str "128")
    else if name = "aws_request_id" then some (.str "req-1")
    else if name = "log_group_name" then some (.str "/aws/lambda/f")
    else if name = "log_stream_name" then some (.str "2024/01/01/[$LATEST]abc")
    else Option.none
  remainingTime := fun k => .ok (.int (if k = 0 then 5000 else 4000))

/-- A concrete host context like Scenario B but with the single attribute
`function_version` absent. -/
def missingVersionHost : HostContext where
  attrs := fun name =>
    if name = "function_version" then Option.none else scenarioBHost.attrs name
  remainingTime := scenarioBHost.remainingTime

/-- The context view that construction from the Scenario B host produces. -/
def scenarioBCtx : LambdaContext :=
  ⟨scenarioBHost, storage7 "f" "1" "arn:aws:lambda:us-east-1:123456789012:function:f"
    "128" "req-1" "/aws/lambda/f" "2024/01/01/[$LATEST]abc"⟩

/-- A concrete host context whose seven attributes are all fine but whose
remaining-time method returns a non-integer, so the lazy query fails while
the eager snapshot succeeds. -/
def badClockHost : HostContext where
  attrs := scenarioBHost.attrs
  remainingTime := fun _ => .ok (.str "soon")

/-- The context view that construction from the bad-clock host produces. -/
def badClockCtx : LambdaContext :=
  ⟨badClockHost, storage7 "f" "1" "arn:aws:lambda:us-east-1:123456789012:function:f"
    "128" "req-1" "/aws/lambda/f" "2024/01/01/[$LATEST]abc"⟩

mutual

theorem decodeVal_encodeVal (v : Value) :
    ValueCodec.decodeVal (ValueCodec.encodeVal v) = Except.ok v := by
  cases v with
  | null => rfl
  | bool b => rfl
  | int n => rfl
  | float q => rfl
  | str s => rfl
  | arr xs =>
    simp [ValueCodec.encodeVal, ValueCodec.decodeVal, decodeArr_encodeArr xs]
  | obj kvs =>
    simp [ValueCodec.encodeVal, ValueCodec.decodeVal, decodeObj_encodeObj kvs]

theorem decodeArr_encodeArr (xs : List Value) :
    ValueCodec.decodeArr (ValueCodec.encodeArr xs) = Except.ok xs := by
  cases xs with
  | nil => rfl
  | cons v vs =>
    simp [ValueCodec.encodeArr, ValueCodec.decodeArr, decodeVal_encodeVal v,
      decodeArr_encodeArr vs]

theorem decodeObj_encodeObj (kvs : List (String × Value)) :
    ValueCodec.decodeObj (ValueCodec.encodeObj kvs) = Except.ok kvs := by
  cases kvs with
  | nil => rfl
  | cons kv rest =>
    obtain ⟨k, v⟩ := kv
    simp [ValueCodec.encodeObj, ValueCodec.decodeObj, decodeVal_encodeVal v,
      decodeObj_encodeObj rest]

end

/-- Construction failure analysis: when `LambdaContext::new` fails, the error
it returns is exactly the host error produced by reading one of the seven
attributes, propagated unchanged. -/
theorem new_error_strAttr (c : HostContext) (e : PyErr)
    (h : LambdaContext.new c = Except.error e) :
    ∃ name ∈ contextAttrNames, strAttr c name = Except.error e := by
  unfold LambdaContext.new at h
  repeat' split at h
  all_goals
    first
      | exact Except.noConfusion h
      | (rename_i heq
         injection h with he
         subst he
         exact ⟨_, by simp [contextAttrNames], heq⟩)

/-- Construction success analysis: when `LambdaContext::new` succeeds, every
one of the seven attribute reads succeeded. -/
theorem strAttr_ok_of_new_ok (c : HostContext) (ctx : LambdaContext)
    (h : LambdaContext.new c = Except.ok ctx) :
    ∀ name ∈ contextAttrNames, ∃ s, strAttr c name = Except.ok s := by
  unfold LambdaContext.new at h
  repeat' split at h
  all_goals try exact Except.noConfusion h
  intro name hname
  simp only [contextAttrNames, List.mem_cons, List.not_mem_nil, or_false] at hname
  rcases hname with rfl | rfl | rfl | rfl | rfl | rfl | rfl
  all_goals exact ⟨_, by assumption⟩

/-- Construction from seven successful attribute reads: the resulting view
stores exactly the seven strings, in order. -/
theorem new_ok_of_attrs (c : HostContext) (s0 s1 s2 s3 s4 s5 s6 : String)
    (h0 : strAttr c "function_name" = Except.ok s0)
    (h1 : strAttr c "function_version" = Except.ok s1)
    (h2 : strAttr c "invoked_function_arn" = Except.ok s2)
    (h3 : strAttr c "memory_limit_in_mb" = Except.ok s3)
    (h4 : strAttr c "aws_request_id" = Except.ok s4)
    (h5 : strAttr c "log_group_name" = Except.ok s5)
    (h6 : strAttr c "log_stream_name" = Except.ok s6) :
    LambdaContext.new c = Except.ok ⟨c, storage7 s0 s1 s2 s3 s4 s5 s6⟩ := by
  unfold LambdaContext.new
  rw [h0, h1, h2, h3, h4, h5, h6]

/-- C1: for every Value v in the supported JSON-compatible subset, decoding
the encoding of v yields exactly v.  Decoded objects come back with the same
key/value pairs in the same list positions, so they are equal to the original
under plain structural equality, which is finer than (and therefore implies)
the order-insensitive value equality of the claim; sequences compare by
ordered elements as required. -/
theorem decode_encode_roundtrip (v : Value) :
    (ValueCodec.encode v).bind ValueCodec.decode = Except.ok v := by
  simp [ValueCodec.encode, ValueCodec.decode, Except.bind, decodeVal_encodeVal v]

/-- C2 counterexample: on a host context whose `function_version` attribute
is absent (the other six fields present and string-typed), construction does
not fail with a `ContextError::AttributeExtractionFailed` value: the source's
`ContextError` enum has no such variant (its sole variant describes the
remaining-time failure), and `LambdaContext::new` returns the host
`AttributeError` for the missing field, untranslated — an error whose kind is
neither the fixed `ContextError` text nor a `ContextError` at all. -/
theorem context_attr_error_untranslated_cex :
    LambdaContext.new missingVersionHost =
      Except.error ⟨"AttributeError", some (.str "function_version")⟩ ∧
    ContextError.display ContextError.GetRemainingTimeFailed ≠ "AttributeError" ∧
    ContextError.description ContextError.GetRemainingTimeFailed ≠ "AttributeError" :=
  ⟨rfl, by decide, by decide⟩

/-- C2 (amended): if any one of the seven named fields is absent from the
host context or cannot be coerced to a string, construction fails as a whole
— the error being the underlying host error of a failed attribute read,
propagated unchanged — no context view is produced (so no accessor is
reachable), and the user handler function is never invoked. -/
theorem context_attr_failure_aborts (c : HostContext)
    (h : ∃ name ∈ contextAttrNames, ∃ e, strAttr c name = Except.error e) :
    (∃ e, LambdaContext.new c = Except.error e ∧
        ∃ name ∈ contextAttrNames, strAttr c name = Except.error e) ∧
    ∀ (f : Value → LambdaContext → LambdaResult) (pe : PyVal),
      (handlerTrace f pe c).2 = 0 := by
  have hfail : ∃ e, LambdaContext.new c = Except.error e := by
    cases hnew : LambdaContext.new c with
    | error e => exact ⟨e, rfl⟩
    | ok ctx =>
      obtain ⟨name, hmem, e, he⟩ := h
      obtain ⟨s, hs⟩ := strAttr_ok_of_new_ok c ctx hnew name hmem
      rw [he] at hs
      exact Except.noConfusion hs
  obtain ⟨e, hnew⟩ := hfail
  refine ⟨⟨e, hnew, new_error_strAttr c e hnew⟩, ?_⟩
  intro f pe
  cases hd : ValueCodec.decode pe with
  | error e2 => simp [handlerTrace, hd]
  | ok ev => simp [handlerTrace, hd, hnew]

/-- C2 witness: the amended theorem at the concrete host missing only
`function_version`, with the identity handler and a null event. -/
theorem context_attr_failure_aborts_witness :
    LambdaContext.new missingVersionHost =
      Except.error ⟨"AttributeError", some (.str "function_version")⟩ ∧
    (handlerTrace (fun v _ => Except.ok v) PyVal.none missingVersionHost).2 = 0 := by
  have h := context_attr_failure_aborts missingVersionHost
    ⟨"function_version", by simp [contextAttrNames],
      ⟨"AttributeError", some (.str "function_version")⟩, rfl⟩
  exact ⟨rfl, h.2 (fun v _ => Except.ok v) PyVal.none⟩

/-- C3 counterexample: the host-visible failure is not always of the generic
runtime-error kind — when context construction fails, the adapter returns the
host `AttributeError` untranslated, so the invocation with a missing
`function_version` surfaces an exception whose kind differs from
`RuntimeError`. -/
theorem single_exception_kind_cex :
    handler (fun v _ => Except.ok v) PyVal.none missingVersionHost =
      Except.error ⟨"AttributeError", some (.str "function_version")⟩ ∧
    (PyErr.mk "AttributeError" (some (.str "function_version"))).ptype ≠
      "RuntimeError" :=
  ⟨rfl, by decide⟩

/-- C3 (amended): the first failing step aborts the invocation, but only an
error returned by the user function is translated into the single
`RuntimeError` kind (with the error's full `Debug` text as the message);
an event-decode failure surfaces as the host exception produced by the
codec's `to_pyerr` conversion, and a context-construction failure surfaces
as the untranslated host error of the failed attribute read — in both of
those cases the user function is never invoked. -/
theorem error_translation_per_step (f : Value → LambdaContext → LambdaResult)
    (pe : PyVal) (c : HostContext) :
    (∀ e, ValueCodec.decode pe = Except.error e →
        handlerTrace f pe c = (Except.error e.to_pyerr, 0)) ∧
    (∀ event e2, ValueCodec.decode pe = Except.ok event →
        LambdaContext.new c = Except.error e2 →
        handlerTrace f pe c = (Except.error e2, 0)) ∧
    (∀ event ctx err, ValueCodec.decode pe = Except.ok event →
        LambdaContext.new c = Except.ok ctx →
        f event ctx = Except.error err →
        handlerTrace f pe c =
          (Except.error ⟨"RuntimeError", some (.str err.debugText)⟩, 1)) := by
  refine ⟨?_, ?_, ?_⟩
  · intro e he
    simp [handlerTrace, he]
  · intro event e2 hd hn
    simp [handlerTrace, hd, hn]
  · intro event ctx err hd hn hf
    simp [handlerTrace, hd, hn, hf]

/-- C3 witness: the amended theorem at three concrete invocations — a
non-convertible event, a context missing a field, and a user function that
fails with diagnostic text boom. -/
theorem error_translation_per_step_witness :
    handlerTrace (fun v _ => Except.ok v) (PyVal.custom "object") scenarioBHost =
      (Except.error ⟨"TypeError", some (.str "object is not JSON serializable")⟩, 0) ∧
    handlerTrace (fun v _ => Except.ok v) PyVal.none missingVersionHost =
      (Except.error ⟨"AttributeError", some (.str "function_version")⟩, 0) ∧
    handlerTrace (fun _ _ => Except.error ⟨"boom"⟩) PyVal.none scenarioBHost =
      (Except.error ⟨"RuntimeError", some (.str "boom")⟩, 1) := by
  refine ⟨?_, ?_, ?_⟩
  · exact (error_translation_per_step (fun v _ => Except.ok v)
      (PyVal.custom "object") scenarioBHost).1 (JsonError.typeError "object") rfl
  · exact (error_translation_per_step (fun v _ => Except.ok v)
      PyVal.none missingVersionHost).2.1 Value.null
      ⟨"AttributeError", some (.str "function_version")⟩ rfl rfl
  · exact (error_translation_per_step (fun _ _ => Except.error ⟨"boom"⟩)
      PyVal.none scenarioBHost).2.2 Value.null scenarioBCtx ⟨"boom"⟩ rfl rfl rfl

/-- C4: whenever the user function returns an error e, the adapter raises
exactly one host exception, of the `RuntimeError` kind, whose message string
is precisely the full diagnostic (`Debug`) text of e, with no added or
altered characters. -/
theorem user_error_message_is_debug_text
    (f : Value → LambdaContext → LambdaResult) (pe : PyVal) (c : HostContext)
    (event : Value) (ctx : LambdaContext) (err : BoxedError)
    (h1 : ValueCodec.decode pe = Except.ok event)
    (h2 : LambdaContext.new c = Except.ok ctx)
    (h3 : f event ctx = Except.error err) :
    handler f pe c = Except.error ⟨"RuntimeError", some (.str err.debugText)⟩ := by
  simp [handler, handlerTrace, h1, h2, h3]

/-- C4 witness: a user function failing with diagnostic text boom yields the
host exception message boom exactly. -/
theorem user_error_message_is_debug_text_witness :
    handler (fun _ _ => Except.error ⟨"boom"⟩) PyVal.none scenarioBHost =
      Except.error ⟨"RuntimeError", some (.str "boom")⟩ :=
  user_error_message_is_debug_text (fun _ _ => Except.error ⟨"boom"⟩)
    PyVal.none scenarioBHost Value.null scenarioBCtx ⟨"boom"⟩ rfl rfl rfl

/-- C5: when all seven named fields are present on the host context and
string-typed, construction succeeds, the view stores the seven supplied
strings in order, and each of the seven accessors returns exactly the
supplied string, unmodified. -/
theorem construction_succeeds_accessors (c : HostContext)
    (s0 s1 s2 s3 s4 s5 s6 : String)
    (h0 : c.attrs "function_name" = some (.str s0))
    (h1 : c.attrs "function_version" = some (.str s1))
    (h2 : c.attrs "invoked_function_arn" = some (.str s2))
    (h3 : c.attrs "memory_limit_in_mb" = some (.str s3))
    (h4 : c.attrs "aws_request_id" = some (.str s4))
    (h5 : c.attrs "log_group_name" = some (.str s5))
    (h6 : c.attrs "log_stream_name" = some (.str s6)) :
    LambdaContext.new c = Except.ok ⟨c, storage7 s0 s1 s2 s3 s4 s5 s6⟩ ∧
    (LambdaContext.mk c (storage7 s0 s1 s2 s3 s4 s5 s6)).function_name = s0 ∧
    (LambdaContext.mk c (storage7 s0 s1 s2 s3 s4 s5 s6)).function_version = s1 ∧
    (LambdaContext.mk c (storage7 s0 s1 s2 s3 s4 s5 s6)).invoked_function_arn = s2 ∧
    (LambdaContext.mk c (storage7 s0 s1 s2 s3 s4 s5 s6)).memory_limit_in_mb = s3 ∧
    (LambdaContext.mk c (storage7 s0 s1 s2 s3 s4 s5 s6)).aws_request_id = s4 ∧
    (LambdaContext.mk c (storage7 s0 s1 s2 s3 s4 s5 s6)).log_group_name = s5 ∧
    (LambdaContext.mk c (storage7 s0 s1 s2 s3 s4 s5 s6)).log_stream_name = s6 := by
  refine ⟨?_, rfl, rfl, rfl, rfl, rfl, rfl, rfl⟩
  exact new_ok_of_attrs c s0 s1 s2 s3 s4 s5 s6
    (by simp [strAttr, HostContext.getattr, h0, extractString, Except.bind])
    (by simp [strAttr, HostContext.getattr, h1, extractString, Except.bind])
    (by simp [strAttr, HostContext.getattr, h2, extractString, Except.bind])
    (by simp [strAttr, HostContext.getattr, h3, extractString, Except.bind])
    (by simp [strAttr, HostContext.getattr, h4, extractString, Except.bind])
    (by simp [strAttr, HostContext.getattr, h5, extractString, Except.bind])
    (by simp [strAttr, HostContext.getattr, h6, extractString, Except.bind])

/-- C5 witness: the Scenario B host constructs successfully and each of the
seven accessors returns the corresponding supplied literal. -/
theorem construction_succeeds_accessors_witness :
    LambdaContext.new scenarioBHost = Except.ok scenarioBCtx ∧
    scenarioBCtx.function_name = "f" ∧
    scenarioBCtx.function_version = "1" ∧
    scenarioBCtx.invoked_function_arn =
      "arn:aws:lambda:us-east-1:123456789012:function:f" ∧
    scenarioBCtx.memory_limit_in_mb = "128" ∧
    scenarioBCtx.aws_request_id = "req-1" ∧
    scenarioBCtx.log_group_name = "/aws/lambda/f" ∧
    scenarioBCtx.log_stream_name = "2024/01/01/[$LATEST]abc" :=
  construction_succeeds_accessors scenarioBHost "f" "1"
    "arn:aws:lambda:us-east-1:123456789012:function:f" "128" "req-1"
    "/aws/lambda/f" "2024/01/01/[$LATEST]abc" rfl rfl rfl rfl rfl rfl rfl

/-- C6: the remaining-time query is lazy and uncached — its result on the
k-th call is obtained from the host method's answer to that very call:
if that answer is a value coercible to an unsigned 64-bit integer n the
query returns n; if the call-and-coerce pipeline fails for any reason it
returns the single error `GetRemainingTimeFailed`; and the result does not
depend on the seven eagerly captured strings at all. -/
theorem remaining_time_lazy (ctx : LambdaContext) (k : Nat) :
    (∀ v n, ctx.py_context.remainingTime k = Except.ok v →
        extractU64 v = Except.ok n →
        ctx.get_remaining_time_in_millis k = Except.ok n) ∧
    (∀ e, (ctx.py_context.remainingTime k).bind extractU64 = Except.error e →
        ctx.get_remaining_time_in_millis k =
          Except.error ContextError.GetRemainingTimeFailed) ∧
    (∀ s : Fin 7 → String,
        LambdaContext.get_remaining_time_in_millis ⟨ctx.py_context, s⟩ k =
          ctx.get_remaining_time_in_millis k) := by
  refine ⟨?_, ?_, ?_⟩
  · intro v n hv hn
    simp [LambdaContext.get_remaining_time_in_millis, hv, hn, Except.bind]
  · intro e he
    simp [LambdaContext.get_remaining_time_in_millis, he]
  · intro s
    simp [LambdaContext.get_remaining_time_in_millis]

/-- C6 witness: against the Scenario B host the first call observes 5000 and
the second call observes 4000 (the answer is re-obtained from the host each
time, not cached), and against a host whose method returns a non-integer the
query fails with `GetRemainingTimeFailed` even though the seven eager fields
were read successfully. -/
theorem remaining_time_lazy_witness :
    scenarioBCtx.get_remaining_time_in_millis 0 = Except.ok 5000 ∧
    scenarioBCtx.get_remaining_time_in_millis 1 = Except.ok 4000 ∧
    badClockCtx.get_remaining_time_in_millis 0 =
      Except.error ContextError.GetRemainingTimeFailed := by
  refine ⟨?_, ?_, ?_⟩
  · exact (remaining_time_lazy scenarioBCtx 0).1 (.int 5000) 5000 rfl
      (by norm_num [extractU64]; rfl)
  · exact (remaining_time_lazy scenarioBCtx 1).1 (.int 4000) 4000 rfl
      (by norm_num [extractU64]; rfl)
  · exact (remaining_time_lazy badClockCtx 0).2.1
      ⟨"TypeError", some (.str "expected an integer")⟩ rfl

/-- C7: when decoding the host event fails, the adapter returns the
translated failure immediately: the instrumented call count of the user
function is zero, and the outcome does not depend on the user function at
all. -/
theorem decode_failure_returns_immediately
    (f g : Value → LambdaContext → LambdaResult) (pe : PyVal) (c : HostContext)
    (e : JsonError) (h : ValueCodec.decode pe = Except.error e) :
    handlerTrace f pe c = (Except.error e.to_pyerr, 0) ∧
    handler f pe c = handler g pe c := by
  constructor
  · simp [handlerTrace, h]
  · simp [handler, handlerTrace, h]

/-- C7 witness: a non-convertible event (a custom class instance) aborts the
invocation before the user function, for two different user functions
alike. -/
theorem decode_failure_returns_immediately_witness :
    handlerTrace (fun v _ => Except.ok v) (PyVal.custom "object") scenarioBHost =
      (Except.error ⟨"TypeError", some (.str "object is not JSON serializable")⟩, 0) ∧
    handler (fun v _ => Except.ok v) (PyVal.custom "object") scenarioBHost =
      handler (fun _ _ => Except.ok Value.null) (PyVal.custom "object") scenarioBHost := by
  have h := decode_failure_returns_immediately (fun v _ => Except.ok v)
    (fun _ _ => Except.ok Value.null) (PyVal.custom "object") scenarioBHost
    (JsonError.typeError "object") rfl
  exact ⟨h.1, h.2⟩

/-- C8: when event decoding and context construction both succeed, the
adapter calls the user function exactly once — the instrumented call count
is one — passing it the decoded event and the constructed context, and the
invocation's outcome is determined by that single call's result (encoded on
success, translated on failure). -/
theorem user_function_called_exactly_once
    (f : Value → LambdaContext → LambdaResult) (pe : PyVal) (c : HostContext)
    (event : Value) (ctx : LambdaContext)
    (h1 : ValueCodec.decode pe = Except.ok event)
    (h2 : LambdaContext.new c = Except.ok ctx) :
    (handlerTrace f pe c).2 = 1 ∧
    handler f pe c =
      (match f event ctx with
       | .ok r =>
         match ValueCodec.encode r with
         | .ok out => Except.ok out
         | .error e => Except.error e.to_pyerr
       | .error e => Except.error ⟨"RuntimeError", some (.str e.debugText)⟩) := by
  constructor
  · cases hf : f event ctx with
    | error err => simp [handlerTrace, h1, h2, hf]
    | ok r => simp [handlerTrace, h1, h2, hf, ValueCodec.encode]
  · cases hf : f event ctx with
    | error err => simp [handler, handlerTrace, h1, h2, hf]
    | ok r => simp [handler, handlerTrace, h1, h2, hf, ValueCodec.encode]

/-- C8 witness: the identity user function on a one-entry object event with
the Scenario B context is called exactly once and its result is returned
encoded (Scenario A of the spec: the output deep-equals the input). -/
theorem user_function_called_exactly_once_witness :
    (handlerTrace (fun v _ => Except.ok v)
      (PyVal.dict [("x", PyVal.int 1)]) scenarioBHost).2 = 1 ∧
    handler (fun v _ => Except.ok v)
      (PyVal.dict [("x", PyVal.int 1)]) scenarioBHost =
      Except.ok (PyVal.dict [("x", PyVal.int 1)]) := by
  have h := user_function_called_exactly_once (fun v _ => Except.ok v)
    (PyVal.dict [("x", PyVal.int 1)]) scenarioBHost
    (Value.obj [("x", Value.int 1)]) scenarioBCtx rfl rfl
  exact ⟨h.1, h.2⟩

/-- C9: a context view, once constructed, never changes — running any
sequence of remaining-time queries (each taking the view by shared borrow)
leaves the view the very same value, so every accessor answers identically
on every call for the lifetime of the view; and a view is only ever produced
with all seven attribute reads succeeded, so a partially populated view is
never exposed. -/
theorem context_view_immutable (c : HostContext) (ctx : LambdaContext)
    (h : LambdaContext.new c = Except.ok ctx) (ks : List Nat) :
    (runRemainingCalls ctx ks).1 = ctx ∧
    ∀ name ∈ contextAttrNames, ∃ s, strAttr c name = Except.ok s := by
  constructor
  · induction ks with
    | nil => rfl
    | cons k ks ih =>
      cases hr : runRemainingCalls ctx ks with
      | mk c2 rs =>
        rw [hr] at ih
        simp [runRemainingCalls, hr]
        exact ih
  · exact strAttr_ok_of_new_ok c ctx h
/-- C9 witness: the Scenario B view survives three remaining-time queries
unchanged. -/
theorem context_view_immutable_witness :
    (runRemainingCalls scenarioBCtx [0, 1, 2]).1 = scenarioBCtx :=
  (context_view_immutable scenarioBHost scenarioBCtx rfl [0, 1, 2]).1

/-- C10: the public `ContextError` type has exactly one variant,
`GetRemainingTimeFailed`; its `Display` text and its `Error::description`
are always the fixed string, and its cause is always `None`, regardless of
the underlying reason; and a failure while reading one of the seven
attributes during construction is returned as the underlying host error
itself, unchanged — never as a `ContextError` value. -/
theorem context_error_shape :
    (∀ e : ContextError, e = ContextError.GetRemainingTimeFailed ∧
        e.display = "failed to call get_remaining_time_in_millis" ∧
        e.description = "failed to call get_remaining_time_in_millis" ∧
        e.cause = Option.none) ∧
    (∀ c e, LambdaContext.new c = Except.error e →
        ∃ name ∈ contextAttrNames, strAttr c name = Except.error e) := by
  constructor
  · intro e
    cases e
    exact ⟨rfl, rfl, rfl, rfl⟩
  · intro c e h
    exact new_error_strAttr c e h

/-- C10 witness: the single variant's texts and causelessness, and the
all-fields-missing host whose construction error is exactly the host
attribute error for the first field read. -/
theorem context_error_shape_witness :
    ContextError.display ContextError.GetRemainingTimeFailed =
      "failed to call get_remaining_time_in_millis" ∧
    ContextError.cause ContextError.GetRemainingTimeFailed = Option.none ∧
    LambdaContext.new missingCtx =
      Except.error ⟨"AttributeError", some (.str "function_name")⟩ := by
  have h := context_error_shape
  exact ⟨(h.1 ContextError.GetRemainingTimeFailed).2.1,
    (h.1 ContextError.GetRemainingTimeFailed).2.2.2, rfl⟩

end Crowbar
